import Mathlib

/-!
Verification of the adams-backend subscription service.

This file gives a shallow embedding of the state-changing logic of the
repository's routers (`routers/webhooks.py`, `routers/payment.py`,
`routers/admin.py`) and proves, or refutes, the properties stated in
the specification.

Modelling conventions:
* Database rows are Lean structures; a table is a `List` of rows; a
  SQLAlchemy `query(...).filter(...).first()` followed by in-place
  mutation and `commit()` is modelled by a recursive "update the first
  matching element" function on the list.
* `date.today()` and parsed timestamps are opaque inputs, passed as a
  `Nat` parameter (`today`) or as a function argument.
* Python `Optional` columns and optional JSON keys are `Option`;
  Python truthiness of a string/int under `if not x` is made explicit
  (`none` or `""`, `none` or `0`).
* Handlers that raise `HTTPException` are `Except Nat` (the HTTP
  status code); the error branch carries no state, matching the code,
  which raises before performing any local write.
* Monetary values are `ℚ` (the code's Python floats are exact here:
  every amount is an integer number of cents divided by 100).
-/

namespace Adams

/-- Modelled from the spec: the `Customer` table (`models/user.py` is
not part of the source tree); the fields are exactly the ones the
routers read or write: identity, external Square identifiers, the plan
reference, `subscription_active`, `subscription_status`, and the
`failed_payment_attempts` counter (a nullable column, hence
`Option Nat`). -/
structure Customer where
  id : Nat
  square_customer_id : Option String
  square_subscription_id : Option String
  plan_id : Option String
  plan_variation_id : Option String
  subscription_active : Bool
  subscription_status : String
  failed_payment_attempts : Option Nat
  deriving Repr, DecidableEq

/-- Modelled from the spec: a `SubscriptionLog` row (`models/subscription.py`
is not part of the source tree); append-only audit entry with an action
tag and an effective date (modelled as a `Nat` day number). -/
structure SubscriptionLog where
  customer_id : Nat
  subscription_id : Option String
  action : String
  effective_date : Nat
  deriving Repr, DecidableEq

/-- The database state the webhook handlers touch: the customers table
and the append-only subscription log. -/
structure DBState where
  customers : List Customer
  logs : List SubscriptionLog
  deriving Repr, DecidableEq

/-! ## Webhook reconciliation (`routers/webhooks.py`) -/

/-- `db.query(Customer).filter(Customer.square_customer_id == sid).first()`
followed by mutating the found row and `db.add`-ing fresh log rows:
apply `f` to the first customer whose `square_customer_id` equals
`some sid`.  `f` returns `none` when the per-customer processing raises
(the handler's `except` clause then rolls the session back), and the
whole call returns `none` when no customer matches or processing
raised. -/
def applyFirstCustomer (sid : String)
    (f : Customer → Option (Customer × List SubscriptionLog)) :
    List Customer → Option (List Customer × List SubscriptionLog)
  | [] => none
  | c :: cs =>
    if c.square_customer_id = some sid then
      match f c with
      | none => none
      | some (c', ls) => some (c' :: cs, ls)
    else
      (applyFirstCustomer sid f cs).map (fun p => (c :: p.1, p.2))

/-- Per-customer body of `handle_payment_failed` (webhooks.py:56-75):
increment `failed_payment_attempts` (treating NULL as 0); if the new
count reaches 3 and the status is not already `"SUSPENDED"`, suspend
the subscription and add a `SUSPEND` log entry dated today. -/
def failStep (today : Nat) (c : Customer) : Option (Customer × List SubscriptionLog) :=
  let attempts := c.failed_payment_attempts.getD 0 + 1
  let c1 := { c with failed_payment_attempts := some attempts }
  if 3 ≤ attempts ∧ c1.subscription_status ≠ "SUSPENDED" then
    some ({ c1 with subscription_status := "SUSPENDED", subscription_active := false },
      [⟨c1.id, c1.square_subscription_id, "SUSPEND", today⟩])
  else
    some (c1, [])

/-- Per-customer body of `handle_payment_success` (webhooks.py:102-122):
reset the failure counter if positive, and reactivate (with a
`REACTIVATE` log entry) if the status is `"SUSPENDED"`.  When the
column is NULL the comparison `customer.failed_payment_attempts > 0`
raises `TypeError`, which the surrounding `except` catches and rolls
back: modelled by returning `none`. -/
def successStep (today : Nat) (c : Customer) : Option (Customer × List SubscriptionLog) :=
  match c.failed_payment_attempts with
  | none => none
  | some n =>
    let c1 := if 0 < n then { c with failed_payment_attempts := some 0 } else c
    if c1.subscription_status = "SUSPENDED" then
      some ({ c1 with subscription_status := "ACTIVE", subscription_active := true },
        [⟨c1.id, c1.square_subscription_id, "REACTIVATE", today⟩])
    else
      some (c1, [])

/-- `handle_payment_failed` (webhooks.py:42-80).  `cid` is the value of
`data["data"]["object"]["invoice"]["primary_recipient"]["customer_id"]`
(`none` when any key on the path is missing); a missing or empty id, a
customer that cannot be resolved, or an internal error leaves the
database unchanged. -/
def handle_payment_failed (today : Nat) (cid : Option String) (db : DBState) : DBState :=
  if cid.getD "" = "" then db
  else
    match applyFirstCustomer (cid.getD "") (failStep today) db.customers with
    | none => db
    | some (cs', ls) => { customers := cs', logs := db.logs ++ ls }

/-- `handle_payment_success` (webhooks.py:82-125), same conventions as
`handle_payment_failed`. -/
def handle_payment_success (today : Nat) (cid : Option String) (db : DBState) : DBState :=
  if cid.getD "" = "" then db
  else
    match applyFirstCustomer (cid.getD "") (successStep today) db.customers with
    | none => db
    | some (cs', ls) => { customers := cs', logs := db.logs ++ ls }

/-- The parsed JSON body of a webhook request, restricted to the keys
the handler reads: `type`, `event_id`, and the nested customer-id
path. -/
structure WebhookPayload where
  eventType : Option String
  event_id : Option String
  invoice_customer_id : Option String
  deriving Repr, DecidableEq

/-- An incoming webhook request: either the JSON body parses to a
payload, or `request.json()` raises (malformed body). -/
inductive WebhookRequest where
  | malformed
  | payload (p : WebhookPayload)
  deriving Repr, DecidableEq

/-- The response of `square_webhook`: handlers never raise, so the
HTTP status is the field `httpStatus`; `ok` records whether the JSON
body was `{"status": "success"}` (as opposed to the caught-exception
body `{"status": "error", ...}`). -/
structure WebhookResponse where
  httpStatus : Nat
  ok : Bool
  deriving Repr, DecidableEq

/-- `square_webhook` (webhooks.py:13-40): dispatch on the notification
type; `invoice.payment_failed` and `invoice.payment_made` run their
handlers, every other type is ignored; any exception (e.g. a malformed
body) is caught and the endpoint still returns HTTP 200. -/
def square_webhook (today : Nat) (req : WebhookRequest) (db : DBState) :
    WebhookResponse × DBState :=
  match req with
  | .malformed => (⟨200, false⟩, db)
  | .payload p =>
    if p.eventType = some "invoice.payment_failed" then
      (⟨200, true⟩, handle_payment_failed today p.invoice_customer_id db)
    else if p.eventType = some "invoice.payment_made" then
      (⟨200, true⟩, handle_payment_success today p.invoice_customer_id db)
    else
      (⟨200, true⟩, db)

/-! ## Subscription lifecycle forwarding (`routers/payment.py`, `routers/admin.py`) -/

/-- Modelled from the spec: the observable shape of a result returned
by the external payment-platform client (`utils/square_client.py` is
not part of the source tree).  Per the spec each call returns a
`{success: bool, error?: string, ...}`-shaped dictionary, while some
platform error shapes instead carry an `errors` list; the routers also
probe for a `subscription` object.  The structure records exactly the
keys the routers test: `success`, `error`, whether the raw dictionary
contains an `errors` key, and whether it contains a truthy
`subscription` value. -/
structure SquareResult where
  success : Bool
  error : Option String
  errors_present : Bool
  subscription_present : Bool
  deriving Repr, DecidableEq

/-- `pause_sub` (payment.py:391-409): 404 without a stored
subscription id; 400 when the platform result carries an `errors`
key (the only failure check this endpoint makes); otherwise set
`subscription_status` to `"PAUSED"` — `subscription_active` is not
touched — and append one `PAUSE` log entry. -/
def pause_sub (today : Nat) (user : Customer) (res : SquareResult) :
    Except Nat (Customer × List SubscriptionLog) :=
  match user.square_subscription_id with
  | none => .error 404
  | some sid =>
    if res.errors_present then .error 400
    else .ok ({ user with subscription_status := "PAUSED" },
      [⟨user.id, some sid, "PAUSE", today⟩])

/-- `resume_sub` (payment.py:411-429): mirror image of `pause_sub`;
sets `subscription_status` to `"ACTIVE"` without touching
`subscription_active`, and appends one `RESUME` log entry. -/
def resume_sub (today : Nat) (user : Customer) (res : SquareResult) :
    Except Nat (Customer × List SubscriptionLog) :=
  match user.square_subscription_id with
  | none => .error 404
  | some sid =>
    if res.errors_present then .error 400
    else .ok ({ user with subscription_status := "ACTIVE" },
      [⟨user.id, some sid, "RESUME", today⟩])

/-- `cancel_sub` (payment.py:431-450): 404 without a subscription id;
400 when the platform result has `success` false; otherwise clear
`subscription_active`, set status `"CANCELED"`, and append one
`CANCEL` log entry. -/
def cancel_sub (today : Nat) (user : Customer) (res : SquareResult) :
    Except Nat (Customer × List SubscriptionLog) :=
  match user.square_subscription_id with
  | none => .error 404
  | some sid =>
    if res.success = false then .error 400
    else .ok ({ user with subscription_active := false, subscription_status := "CANCELED" },
      [⟨user.id, some sid, "CANCEL", today⟩])

/-- `change_plan` (payment.py:452-461): 404 without a subscription id;
400 when the platform result has `success` false; on success the
platform response is returned as-is — no customer field is written and
no `SubscriptionLog` row is added. -/
def change_plan (today : Nat) (user : Customer) (res : SquareResult) :
    Except Nat (Customer × List SubscriptionLog) :=
  match user.square_subscription_id with
  | none => .error 404
  | some _ =>
    if res.success = false then .error 400
    else .ok (user, [])

/-- `dummy_create_subscription` (payment.py:280-286): the activation
endpoint's stand-in for the platform call, which always reports
success; `subid` stands for the generated `dummy_sub_<uuid>`
identifier. -/
def dummy_create_subscription (subid : String) : SquareResult × String :=
  ({ success := true, error := none, errors_present := false,
     subscription_present := true }, subid)

/-- Modelled from the spec: the `Payment` table row created when a
subscription is activated (`models/subscription.py` is not part of the
source tree); the activation endpoint fills customer id, the plan
cost, status `"PAID"` and the subscription id as transaction id. -/
structure Payment where
  customer_id : Nat
  amount : ℚ
  status : String
  square_transaction_id : Option String
  deriving Repr, DecidableEq

/-- `activate_sub` (payment.py:288-339), restricted to the path where
the request names an existing customer: 400 when the customer has no
Square customer id; the subscription is created by
`dummy_create_subscription` (which always succeeds), the customer
becomes `ACTIVE`/`subscription_active`, a local `Payment` is recorded
when the plan variation is known (`planCost` is its cost), and one
`ACTIVATE` log entry is appended. -/
def activate_sub (today : Nat) (subid : String) (customer : Customer)
    (planCost : Option ℚ) :
    Except Nat (Customer × List SubscriptionLog × List Payment) :=
  match customer.square_customer_id with
  | none => .error 400
  | some _ =>
    let res := dummy_create_subscription subid
    if res.1.success = false then .error 400
    else
      let c := { customer with
        square_subscription_id := some res.2,
        subscription_active := true,
        subscription_status := "ACTIVE" }
      let pays := match planCost with
        | some cost => [⟨c.id, cost, "PAID", some res.2⟩]
        | none => []
      .ok (c, [⟨c.id, some res.2, "ACTIVATE", today⟩], pays)

/-- `cancel_customer_subscription` (admin.py:275-307), the admin
cancel: 404 when the customer is missing or has no subscription id;
400 when the platform result carries no `subscription` object (the
check this endpoint makes instead of `success`); otherwise clear
`subscription_active`, set status `"CANCELED"` and append one `CANCEL`
log entry. -/
def cancel_customer_subscription (today : Nat) (customer : Option Customer)
    (res : SquareResult) : Except Nat (Customer × List SubscriptionLog) :=
  match customer with
  | none => .error 404
  | some c =>
    match c.square_subscription_id with
    | none => .error 404
    | some sid =>
      if res.subscription_present = false then .error 400
      else .ok ({ c with subscription_active := false, subscription_status := "CANCELED" },
        [⟨c.id, some sid, "CANCEL", today⟩])

/-- The specification's customer invariant: `subscription_active` is
true if and only if `subscription_status == "ACTIVE"`. -/
def statusInvariant (c : Customer) : Prop :=
  c.subscription_active = true ↔ c.subscription_status = "ACTIVE"

instance (c : Customer) : Decidable (statusInvariant c) := by
  unfold statusInvariant; infer_instance

/-! ## Payment methods (`routers/payment.py` validate-card / save-card) -/

/-- Modelled from the spec: a `PaymentMethod` row (`models/subscription.py`
is not part of the source tree); the local mirror of a saved card with
its `is_default` flag. -/
structure PaymentMethod where
  customer_id : Nat
  square_card_id : String
  last_4_digits : Option String
  card_brand : Option String
  exp_month : Option Nat
  exp_year : Option Nat
  is_default : Bool
  deriving Repr, DecidableEq

/-- `db.query(PaymentMethod).filter(PaymentMethod.customer_id ==
customer.id).update({"is_default": False})`: clear the default flag on
every stored method of the given customer. -/
def clearDefaults (cid : Nat) (ms : List PaymentMethod) : List PaymentMethod :=
  ms.map (fun m => if m.customer_id = cid then { m with is_default := false } else m)

/-- The card row both card-saving endpoints insert: the new Square
card with `is_default = True`. -/
def newCardMethod (cid : Nat) (cardId : String) (last4 brand : Option String)
    (em ey : Option Nat) : PaymentMethod :=
  ⟨cid, cardId, last4, brand, em, ey, true⟩

/-- Effect of `validate_card` (payment.py:129-143) on the
payment-method table, in the branch where a local customer exists and
the Square card creation succeeded: the new default row is built, the
bulk update clears `is_default` on all stored rows of that customer
(the unflushed new row is unaffected), and the new row is added. -/
def validate_card_methods (cid : Nat) (cardId : String) (last4 brand : Option String)
    (em ey : Option Nat) (ms : List PaymentMethod) : List PaymentMethod :=
  clearDefaults cid ms ++ [newCardMethod cid cardId last4 brand em ey]

/-- Effect of `save_card` (payment.py:234-247) on the payment-method
table after a successful Square card creation: disable the previous
defaults of the customer, then add the new method as the default. -/
def save_card_methods (cid : Nat) (cardId : String) (last4 brand : Option String)
    (em ey : Option Nat) (ms : List PaymentMethod) : List PaymentMethod :=
  clearDefaults cid ms ++ [newCardMethod cid cardId last4 brand em ey]

/-- Number of rows of customer `k` marked as the default method. -/
def defaultCount (k : Nat) (ms : List PaymentMethod) : Nat :=
  (ms.filter (fun m => m.customer_id = k ∧ m.is_default = true)).length

/-! ## Invoice synchronization (`routers/admin.py` sync_customer_invoices) -/

/-- A Square money object: a dictionary that may or may not carry an
`amount` key (minor units). -/
structure Money where
  amount : Option Int
  deriving Repr, DecidableEq

/-- A Square invoice payment request, restricted to the key the sync
code reads: `computed_amount_money` (missing key ↦ `none`; the code
defaults it to `{}`). -/
structure PaymentRequest where
  computed_amount_money : Option Money
  deriving Repr, DecidableEq

/-- A remote (Square) invoice, restricted to the keys
`sync_customer_invoices` reads.  A missing or empty
`payment_requests` is the empty list (both are falsy in the code's
truthiness test); a missing or empty `next_payment_amount_money`
dictionary is `none`. -/
structure SqInvoice where
  id : String
  subscription_id : Option String
  status : Option String
  public_url : Option String
  payment_requests : List PaymentRequest
  next_payment_amount_money : Option Money
  deriving Repr, DecidableEq

/-- The amount-extraction logic of `sync_customer_invoices`
(admin.py:513-519): take the first payment request's
`computed_amount_money` (or `{}`); if its `amount` is missing *or
zero* (Python falsiness) and a `next_payment_amount_money` is present,
use that instead; finally divide the minor-unit amount (default 0)
by 100. -/
def extract_amount (sq : SqInvoice) : ℚ :=
  let amount_data : Money :=
    match sq.payment_requests with
    | [] => ⟨none⟩
    | pr :: _ => pr.computed_amount_money.getD ⟨none⟩
  let amount_data : Money :=
    if amount_data.amount.getD 0 = 0 then
      match sq.next_payment_amount_money with
      | some m => m
      | none => amount_data
    else amount_data
  ((amount_data.amount.getD 0 : Int) : ℚ) / 100

/-- Modelled from the spec: a local `Invoice` row
(`models/subscription.py` is not part of the source tree): the local
mirror of an external invoice keyed by the external invoice id, with
amount, status, due date and public URL.  The due date is the parsed
day number (parsing and its today-fallback are opaque here). -/
structure Invoice where
  square_invoice_id : String
  customer_id : Nat
  subscription_id : Option String
  amount : ℚ
  status : Option String
  due_date : Nat
  public_url : Option String
  deriving Repr, DecidableEq

/-- The row `sync_customer_invoices` inserts for a remote invoice that
has no local mirror yet; `dd sq` is the parsed due date (scheduled or
creation timestamp, today on parse failure). -/
def mkInvoice (cid : Nat) (dd : SqInvoice → Nat) (sq : SqInvoice) : Invoice :=
  ⟨sq.id, cid, sq.subscription_id, extract_amount sq, sq.status, dd sq, sq.public_url⟩

/-- The in-place update `sync_customer_invoices` performs on an
existing local mirror: status, public URL and amount are refreshed,
everything else (in particular the due date) is kept. -/
def updInvoice (sq : SqInvoice) (r : Invoice) : Invoice :=
  { r with status := sq.status, public_url := sq.public_url, amount := extract_amount sq }

/-- `Invoice.query.filter(square_invoice_id == i).first()` followed by
in-place mutation: apply `f` to the first row with external id `i`. -/
def updateFirst (i : String) (f : Invoice → Invoice) : List Invoice → List Invoice
  | [] => []
  | r :: rs =>
    if r.square_invoice_id = i then f r :: rs
    else r :: updateFirst i f rs

/-- Whether some committed row carries the external id `i`. -/
def hasId (rows : List Invoice) (i : String) : Bool :=
  rows.any (fun r => r.square_invoice_id = i)

/-- The loop of `sync_customer_invoices` (admin.py:510-548) over the
remote invoice list.  The session has `autoflush=False`, so the lookup
sees only the committed rows (`com`), never the rows added earlier in
the same run (`pend`): an existing mirror is updated in place, a
missing one is appended to the pending inserts and counted. -/
def syncGo (cid : Nat) (dd : SqInvoice → Nat) :
    List SqInvoice → List Invoice → List Invoice → Nat →
    List Invoice × List Invoice × Nat
  | [], com, pend, n => (com, pend, n)
  | sq :: rest, com, pend, n =>
    if hasId com sq.id then
      syncGo cid dd rest (updateFirst sq.id (updInvoice sq) com) pend n
    else
      syncGo cid dd rest com (pend ++ [mkInvoice cid dd sq]) (n + 1)

/-- `sync_customer_invoices` (admin.py:488-550) after the customer and
platform checks: fold the remote list over the local table and commit,
returning the new table and the `synced` count. -/
def sync_customer_invoices (cid : Nat) (dd : SqInvoice → Nat)
    (sqs : List SqInvoice) (rows : List Invoice) : List Invoice × Nat :=
  ((syncGo cid dd sqs rows [] 0).1 ++ (syncGo cid dd sqs rows [] 0).2.1,
    (syncGo cid dd sqs rows [] 0).2.2)

/-! ## Admin analytics growth history (`routers/admin.py` get_admin_analytics) -/

/-- One element of the `growth_history` series: day offset inside the
31-day window, cumulative customer count, and that day's local PAID
revenue. -/
structure GrowthItem where
  day : Nat
  customers : Nat
  revenue : ℚ
  deriving Repr, DecidableEq

/-- The loop of `get_admin_analytics` (admin.py:205-211): starting
from the running total, emit one item per remaining day, adding the
day's new-customer count (`dailyNew i`, the `growth_map` lookup with
default 0) to the total before appending. -/
def growthGo (dailyNew : Nat → Nat) (dailyRev : Nat → ℚ) :
    Nat → Nat → Nat → List GrowthItem
  | _, _, 0 => []
  | total, i, fuel + 1 =>
    let t := total + dailyNew i
    ⟨i, t, dailyRev i⟩ :: growthGo dailyNew dailyRev t (i + 1) fuel

/-- The `growth_history` computation of `get_admin_analytics`
(admin.py:201-211): `countBefore` is the number of customers created
before the 31-day window, and the loop runs for `range(31)`. -/
def growth_history (countBefore : Nat) (dailyNew : Nat → Nat) (dailyRev : Nat → ℚ) :
    List GrowthItem :=
  growthGo dailyNew dailyRev countBefore 0 31

/-- The cumulative series exactly as the specification words it: from
a starting count `n` and daily new-customer counts, the running sums
`n + c0, n + c0 + c1, ...`. -/
def cumulativeSeries (n : Nat) : List Nat → List Nat
  | [] => []
  | c :: cs => (n + c) :: cumulativeSeries (n + c) cs

/-! ## Spec-side amount definitions (for claims C6/C10) -/

/-- The display-amount rule exactly as the specification's claim words
it: the first payment request's computed amount divided by 100 when
that field is populated, otherwise the next-payment-amount field
divided by 100 (0 when neither is populated). -/
def claimDisplayAmount (sq : SqInvoice) : ℚ :=
  match (sq.payment_requests.head?.bind PaymentRequest.computed_amount_money).bind Money.amount with
  | some a => (a : ℚ) / 100
  | none =>
    match sq.next_payment_amount_money.bind Money.amount with
    | some m => (m : ℚ) / 100
    | none => 0

/-- The next-payment-amount fallback: the `next_payment_amount_money`
amount (default 0) divided by 100, or 0 when the field is absent. -/
def nextPaymentFallback (sq : SqInvoice) : ℚ :=
  match sq.next_payment_amount_money with
  | some m => ((m.amount.getD 0 : Int) : ℚ) / 100
  | none => 0

/-- The display-amount rule as amended: the first payment request's
computed amount divided by 100 when that field is populated *with a
non-zero value*; otherwise (absent or zero) the next-payment-amount
fallback. -/
def amendedDisplayAmount (sq : SqInvoice) : ℚ :=
  match (sq.payment_requests.head?.bind PaymentRequest.computed_amount_money).bind Money.amount with
  | some a => if a = 0 then nextPaymentFallback sq else (a : ℚ) / 100
  | none => nextPaymentFallback sq

/-! ## Lemmas about the webhook handlers -/

lemma applyFirstCustomer_eq (sid : String)
    (f : Customer → Option (Customer × List SubscriptionLog))
    (pre : List Customer) (c : Customer) (post : List Customer)
    (hpre : ∀ c' ∈ pre, c'.square_customer_id ≠ some sid)
    (hc : c.square_customer_id = some sid) :
    applyFirstCustomer sid f (pre ++ c :: post) =
      (f c).map (fun p => (pre ++ p.1 :: post, p.2)) := by
  induction pre with
  | nil =>
    simp only [List.nil_append, applyFirstCustomer, hc, if_pos]
    cases f c with
    | none => rfl
    | some p => rfl
  | cons a as ih =>
    have ha : ¬ a.square_customer_id = some sid := hpre a (by simp)
    simp only [List.cons_append, applyFirstCustomer, ha, if_false, ite_false,
      List.append_eq]
    rw [ih (fun c' h => hpre c' (by simp [h]))]
    cases f c with
    | none => rfl
    | some p => rfl

lemma handle_failed_incr (today : Nat) (sid : String) (pre : List Customer)
    (c : Customer) (post : List Customer) (logs : List SubscriptionLog) (n : Nat)
    (hsid : sid ≠ "")
    (hpre : ∀ c' ∈ pre, c'.square_customer_id ≠ some sid)
    (hc : c.square_customer_id = some sid)
    (hn : c.failed_payment_attempts = some n)
    (hlt : n + 1 < 3) :
    handle_payment_failed today (some sid) ⟨pre ++ c :: post, logs⟩ =
      ⟨pre ++ { c with failed_payment_attempts := some (n + 1) } :: post, logs⟩ := by
  unfold handle_payment_failed
  rw [show (some sid).getD "" = sid from rfl, if_neg hsid,
    applyFirstCustomer_eq sid _ pre c post hpre hc]
  have h2 : ¬ 2 ≤ n := by omega
  simp [failStep, hn, h2]

lemma handle_failed_suspend (today : Nat) (sid : String) (pre : List Customer)
    (c : Customer) (post : List Customer) (logs : List SubscriptionLog) (n : Nat)
    (hsid : sid ≠ "")
    (hpre : ∀ c' ∈ pre, c'.square_customer_id ≠ some sid)
    (hc : c.square_customer_id = some sid)
    (hn : c.failed_payment_attempts = some n)
    (hge : 3 ≤ n + 1)
    (hst : c.subscription_status ≠ "SUSPENDED") :
    handle_payment_failed today (some sid) ⟨pre ++ c :: post, logs⟩ =
      ⟨pre ++ ({ c with
          failed_payment_attempts := some (n + 1),
          subscription_status := "SUSPENDED",
          subscription_active := false }) :: post,
        logs ++ [⟨c.id, c.square_subscription_id, "SUSPEND", today⟩]⟩ := by
  unfold handle_payment_failed
  rw [show (some sid).getD "" = sid from rfl, if_neg hsid,
    applyFirstCustomer_eq sid _ pre c post hpre hc]
  have h2 : 2 ≤ n := by omega
  simp [failStep, hn, h2, hst]

lemma handle_success_noop (today : Nat) (sid : String) (pre : List Customer)
    (c : Customer) (post : List Customer) (logs : List SubscriptionLog)
    (hsid : sid ≠ "")
    (hpre : ∀ c' ∈ pre, c'.square_customer_id ≠ some sid)
    (hc : c.square_customer_id = some sid)
    (hn : c.failed_payment_attempts = some 0)
    (hst : c.subscription_status ≠ "SUSPENDED") :
    handle_payment_success today (some sid) ⟨pre ++ c :: post, logs⟩ =
      ⟨pre ++ c :: post, logs⟩ := by
  unfold handle_payment_success
  rw [show (some sid).getD "" = sid from rfl, if_neg hsid,
    applyFirstCustomer_eq sid _ pre c post hpre hc]
  simp [successStep, hn, hst]

lemma handle_success_reactivate (today : Nat) (sid : String) (pre : List Customer)
    (c : Customer) (post : List Customer) (logs : List SubscriptionLog) (n : Nat)
    (hsid : sid ≠ "")
    (hpre : ∀ c' ∈ pre, c'.square_customer_id ≠ some sid)
    (hc : c.square_customer_id = some sid)
    (hn : c.failed_payment_attempts = some n)
    (hpos : 0 < n)
    (hst : c.subscription_status = "SUSPENDED") :
    handle_payment_success today (some sid) ⟨pre ++ c :: post, logs⟩ =
      ⟨pre ++ ({ c with
          failed_payment_attempts := some 0,
          subscription_status := "ACTIVE",
          subscription_active := true }) :: post,
        logs ++ [⟨c.id, c.square_subscription_id, "REACTIVATE", today⟩]⟩ := by
  unfold handle_payment_success
  rw [show (some sid).getD "" = sid from rfl, if_neg hsid,
    applyFirstCustomer_eq sid _ pre c post hpre hc]
  simp [successStep, hn, hpos, hst]

/-! ## Claim C2 -/

/-- C2: for every customer resolvable by its external customer id whose
state starts at `failed_payment_attempts == 0` and
`subscription_status == "ACTIVE"`, three consecutive payment-failed
webhooks leave `failed_payment_attempts == 3`,
`subscription_status == "SUSPENDED"`, `subscription_active == false`,
and append exactly one `SUSPEND` log entry dated today; one subsequent
payment-success webhook then resets the attempts to 0, restores
`ACTIVE`/`subscription_active == true`, and appends one `REACTIVATE`
log entry. -/
theorem C2_three_failures_then_success (today : Nat) (sid : String)
    (pre : List Customer) (c : Customer) (post : List Customer)
    (logs : List SubscriptionLog)
    (hsid : sid ≠ "")
    (hpre : ∀ c' ∈ pre, c'.square_customer_id ≠ some sid)
    (hc : c.square_customer_id = some sid)
    (hn : c.failed_payment_attempts = some 0)
    (hst : c.subscription_status = "ACTIVE") :
    handle_payment_failed today (some sid)
        (handle_payment_failed today (some sid)
          (handle_payment_failed today (some sid) ⟨pre ++ c :: post, logs⟩)) =
      ⟨pre ++ ({ c with
          failed_payment_attempts := some 3,
          subscription_status := "SUSPENDED",
          subscription_active := false }) :: post,
        logs ++ [⟨c.id, c.square_subscription_id, "SUSPEND", today⟩]⟩ ∧
    handle_payment_success today (some sid)
        (handle_payment_failed today (some sid)
          (handle_payment_failed today (some sid)
            (handle_payment_failed today (some sid) ⟨pre ++ c :: post, logs⟩))) =
      ⟨pre ++ ({ c with
          failed_payment_attempts := some 0,
          subscription_status := "ACTIVE",
          subscription_active := true }) :: post,
        logs ++ [⟨c.id, c.square_subscription_id, "SUSPEND", today⟩,
          ⟨c.id, c.square_subscription_id, "REACTIVATE", today⟩]⟩ := by
  have hst' : c.subscription_status ≠ "SUSPENDED" := by rw [hst]; decide
  have e1 : handle_payment_failed today (some sid) ⟨pre ++ c :: post, logs⟩ =
      ⟨pre ++ ({ c with failed_payment_attempts := some 1 }) :: post, logs⟩ := by
    have h := handle_failed_incr today sid pre c post logs 0 hsid hpre hc hn (by omega)
    simpa using h
  have e2 : handle_payment_failed today (some sid)
      ⟨pre ++ ({ c with failed_payment_attempts := some 1 }) :: post, logs⟩ =
      ⟨pre ++ ({ c with failed_payment_attempts := some 2 }) :: post, logs⟩ := by
    have h := handle_failed_incr today sid pre
      ({ c with failed_payment_attempts := some 1 }) post logs 1 hsid hpre hc rfl (by omega)
    simpa using h
  have e3 : handle_payment_failed today (some sid)
      ⟨pre ++ ({ c with failed_payment_attempts := some 2 }) :: post, logs⟩ =
      ⟨pre ++ ({ c with
          failed_payment_attempts := some 3,
          subscription_status := "SUSPENDED",
          subscription_active := false }) :: post,
        logs ++ [⟨c.id, c.square_subscription_id, "SUSPEND", today⟩]⟩ := by
    have h := handle_failed_suspend today sid pre
      ({ c with failed_payment_attempts := some 2 }) post logs 2 hsid hpre hc rfl
      (by omega) hst'
    simpa using h
  have e4 : handle_payment_success today (some sid)
      ⟨pre ++ ({ c with
          failed_payment_attempts := some 3,
          subscription_status := "SUSPENDED",
          subscription_active := false }) :: post,
        logs ++ [⟨c.id, c.square_subscription_id, "SUSPEND", today⟩]⟩ =
      ⟨pre ++ ({ c with
          failed_payment_attempts := some 0,
          subscription_status := "ACTIVE",
          subscription_active := true }) :: post,
        logs ++ [⟨c.id, c.square_subscription_id, "SUSPEND", today⟩,
          ⟨c.id, c.square_subscription_id, "REACTIVATE", today⟩]⟩ := by
    have h := handle_success_reactivate today sid pre
      ({ c with
          failed_payment_attempts := some 3,
          subscription_status := "SUSPENDED",
          subscription_active := false }) post
      (logs ++ [⟨c.id, c.square_subscription_id, "SUSPEND", today⟩]) 3 hsid hpre hc rfl
      (by omega) rfl
    simpa using h
  rw [e1, e2, e3]
  exact ⟨rfl, e4⟩

/-- C2 witness: a concrete two-customer database going through the
three failures and the reactivating success. -/
theorem C2_three_failures_then_success_witness :
    handle_payment_failed 7 (some "sq_1")
        (handle_payment_failed 7 (some "sq_1")
          (handle_payment_failed 7 (some "sq_1")
            ⟨[⟨2, some "sq_2", none, none, none, false, "PENDING", some 1⟩,
              ⟨1, some "sq_1", some "sub_1", some "1", some "basic_plan_id", true, "ACTIVE", some 0⟩],
              []⟩)) =
      ⟨[⟨2, some "sq_2", none, none, none, false, "PENDING", some 1⟩,
        ⟨1, some "sq_1", some "sub_1", some "1", some "basic_plan_id", false, "SUSPENDED", some 3⟩],
        [⟨1, some "sub_1", "SUSPEND", 7⟩]⟩ ∧
    handle_payment_success 7 (some "sq_1")
        (handle_payment_failed 7 (some "sq_1")
          (handle_payment_failed 7 (some "sq_1")
            (handle_payment_failed 7 (some "sq_1")
              ⟨[⟨2, some "sq_2", none, none, none, false, "PENDING", some 1⟩,
                ⟨1, some "sq_1", some "sub_1", some "1", some "basic_plan_id", true, "ACTIVE", some 0⟩],
                []⟩))) =
      ⟨[⟨2, some "sq_2", none, none, none, false, "PENDING", some 1⟩,
        ⟨1, some "sq_1", some "sub_1", some "1", some "basic_plan_id", true, "ACTIVE", some 0⟩],
        [⟨1, some "sub_1", "SUSPEND", 7⟩, ⟨1, some "sub_1", "REACTIVATE", 7⟩]⟩ :=
  C2_three_failures_then_success 7 "sq_1"
    [⟨2, some "sq_2", none, none, none, false, "PENDING", some 1⟩]
    ⟨1, some "sq_1", some "sub_1", some "1", some "basic_plan_id", true, "ACTIVE", some 0⟩
    [] [] (by decide) (by decide) rfl rfl rfl

/-! ## Claim C9 -/

/-- C9: a payment-success webhook for a customer whose
`failed_payment_attempts` is already 0 and whose status is `ACTIVE` is
a no-op: no customer field changes and no log entry is appended. -/
theorem C9_success_webhook_noop (today : Nat) (sid : String)
    (pre : List Customer) (c : Customer) (post : List Customer)
    (logs : List SubscriptionLog)
    (hsid : sid ≠ "")
    (hpre : ∀ c' ∈ pre, c'.square_customer_id ≠ some sid)
    (hc : c.square_customer_id = some sid)
    (hn : c.failed_payment_attempts = some 0)
    (hst : c.subscription_status = "ACTIVE") :
    handle_payment_success today (some sid) ⟨pre ++ c :: post, logs⟩ =
      ⟨pre ++ c :: post, logs⟩ :=
  handle_success_noop today sid pre c post logs hsid hpre hc hn (by rw [hst]; decide)

/-- C9 witness: a concrete no-op success webhook. -/
theorem C9_success_webhook_noop_witness :
    handle_payment_success 3 (some "sq_1")
        ⟨[⟨2, some "sq_2", none, none, none, false, "PENDING", some 1⟩,
          ⟨1, some "sq_1", some "sub_1", some "1", some "basic_plan_id", true, "ACTIVE", some 0⟩],
          [⟨1, some "sub_1", "ACTIVATE", 1⟩]⟩ =
      ⟨[⟨2, some "sq_2", none, none, none, false, "PENDING", some 1⟩,
        ⟨1, some "sq_1", some "sub_1", some "1", some "basic_plan_id", true, "ACTIVE", some 0⟩],
        [⟨1, some "sub_1", "ACTIVATE", 1⟩]⟩ :=
  C9_success_webhook_noop 3 "sq_1"
    [⟨2, some "sq_2", none, none, none, false, "PENDING", some 1⟩]
    ⟨1, some "sq_1", some "sub_1", some "1", some "basic_plan_id", true, "ACTIVE", some 0⟩
    [] [⟨1, some "sub_1", "ACTIVATE", 1⟩] (by decide) (by decide) rfl rfl rfl

/-! ## Claim C4 -/

/-- C4: every webhook request is answered with HTTP 200; notification
types other than payment-failed/payment-made cause no state change,
and a malformed payload is caught so the endpoint still acknowledges
with HTTP 200 and leaves the database unchanged. -/
theorem C4_webhook_always_acks (today : Nat) (req : WebhookRequest) (db : DBState) :
    (square_webhook today req db).1.httpStatus = 200 ∧
    (req = .malformed → (square_webhook today req db).2 = db) ∧
    (∀ p, req = .payload p →
      p.eventType ≠ some "invoice.payment_failed" →
      p.eventType ≠ some "invoice.payment_made" →
      (square_webhook today req db).2 = db) := by
  refine ⟨?_, ?_, ?_⟩
  · cases req with
    | malformed => rfl
    | payload p =>
      simp only [square_webhook]
      split
      · rfl
      · split
        · rfl
        · rfl
  · intro h; subst h; rfl
  · intro p h h1 h2
    subst h
    simp [square_webhook, h1, h2]

/-- C4 witness: an ignored notification type is acknowledged with 200
and changes nothing. -/
theorem C4_webhook_always_acks_witness :
    (square_webhook 0 (.payload ⟨some "customer.created", some "ev_1", some "cust_1"⟩)
        ⟨[], []⟩).1.httpStatus = 200 ∧
    (square_webhook 0 (.payload ⟨some "customer.created", some "ev_1", some "cust_1"⟩)
        ⟨[], []⟩).2 = ⟨[], []⟩ :=
  ⟨(C4_webhook_always_acks 0 (.payload ⟨some "customer.created", some "ev_1", some "cust_1"⟩)
      ⟨[], []⟩).1,
   (C4_webhook_always_acks 0 (.payload ⟨some "customer.created", some "ev_1", some "cust_1"⟩)
      ⟨[], []⟩).2.2 _ rfl (by decide) (by decide)⟩

/-! ## Claim C1 -/

/-- C1 counterexample: pausing an active customer succeeds but leaves
`subscription_active = true` while `subscription_status = "PAUSED"`,
so `subscription_active == (subscription_status == "ACTIVE")` fails
after a successful pause. -/
theorem C1_counterexample :
    pause_sub 0
        ⟨1, some "sq_1", some "sub_1", some "1", some "basic_plan_id", true, "ACTIVE", some 0⟩
        ⟨true, none, false, true⟩ =
      .ok (⟨1, some "sq_1", some "sub_1", some "1", some "basic_plan_id", true, "PAUSED", some 0⟩,
        [⟨1, some "sub_1", "PAUSE", 0⟩]) ∧
    ¬ statusInvariant
        ⟨1, some "sq_1", some "sub_1", some "1", some "basic_plan_id", true, "PAUSED", some 0⟩ :=
  ⟨rfl, by decide⟩

/-- C1 amended: activate, cancel and admin cancel leave the customer
satisfying `subscription_active == (subscription_status == "ACTIVE")`;
pause and resume write only `subscription_status` (to `PAUSED`
resp. `ACTIVE`) and leave `subscription_active` unchanged, so after a
successful pause of an active customer the invariant is violated, and
after a resume it holds only if `subscription_active` was already
true. -/
theorem C1_amended (today : Nat) (user : Customer) (res : SquareResult)
    (customer : Option Customer) (subid : String) (planCost : Option ℚ) :
    (∀ q, activate_sub today subid user planCost = .ok q → statusInvariant q.1) ∧
    (∀ p, cancel_sub today user res = .ok p → statusInvariant p.1) ∧
    (∀ p, cancel_customer_subscription today customer res = .ok p → statusInvariant p.1) ∧
    (∀ p, pause_sub today user res = .ok p →
      p.1.subscription_status = "PAUSED" ∧
        p.1.subscription_active = user.subscription_active) ∧
    (∀ p, resume_sub today user res = .ok p →
      p.1.subscription_status = "ACTIVE" ∧
        p.1.subscription_active = user.subscription_active) := by
  refine ⟨?_, ?_, ?_, ?_, ?_⟩
  · intro q h
    unfold activate_sub at h
    split at h
    · cases h
    · simp only [dummy_create_subscription, reduceIte] at h
      cases h
      simp [statusInvariant]
  · intro p h
    unfold cancel_sub at h
    split at h
    · cases h
    · split at h
      · cases h
      · cases h
        simp [statusInvariant]
  · intro p h
    unfold cancel_customer_subscription at h
    split at h
    · cases h
    · split at h
      · cases h
      · split at h
        · cases h
        · cases h
          simp [statusInvariant]
  · intro p h
    unfold pause_sub at h
    split at h
    · cases h
    · split at h
      · cases h
      · cases h
        exact ⟨rfl, rfl⟩
  · intro p h
    unfold resume_sub at h
    split at h
    · cases h
    · split at h
      · cases h
      · cases h
        exact ⟨rfl, rfl⟩

/-- C1 amended witness: the four customer-facing operations applied at
a concrete active customer and a successful platform result. -/
theorem C1_amended_witness :
    statusInvariant
      (⟨1, some "sq_1", some "s_new", some "1", some "basic_plan_id", true, "ACTIVE", some 0⟩ : Customer) ∧
    statusInvariant
      (⟨1, some "sq_1", some "sub_1", some "1", some "basic_plan_id", false, "CANCELED", some 0⟩ : Customer) ∧
    ((⟨1, some "sq_1", some "sub_1", some "1", some "basic_plan_id", true, "PAUSED", some 0⟩ : Customer).subscription_status = "PAUSED" ∧
      (⟨1, some "sq_1", some "sub_1", some "1", some "basic_plan_id", true, "PAUSED", some 0⟩ : Customer).subscription_active = true) ∧
    ((⟨1, some "sq_1", some "sub_1", some "1", some "basic_plan_id", true, "ACTIVE", some 0⟩ : Customer).subscription_status = "ACTIVE" ∧
      (⟨1, some "sq_1", some "sub_1", some "1", some "basic_plan_id", true, "ACTIVE", some 0⟩ : Customer).subscription_active = true) :=
  ⟨(C1_amended 0
      ⟨1, some "sq_1", some "sub_1", some "1", some "basic_plan_id", true, "ACTIVE", some 0⟩
      ⟨true, none, false, true⟩ none "s_new" none).1
      (⟨1, some "sq_1", some "s_new", some "1", some "basic_plan_id", true, "ACTIVE", some 0⟩,
        [⟨1, some "s_new", "ACTIVATE", 0⟩], []) rfl,
   (C1_amended 0
      ⟨1, some "sq_1", some "sub_1", some "1", some "basic_plan_id", true, "ACTIVE", some 0⟩
      ⟨true, none, false, true⟩ none "s_new" none).2.1
      (⟨1, some "sq_1", some "sub_1", some "1", some "basic_plan_id", false, "CANCELED", some 0⟩,
        [⟨1, some "sub_1", "CANCEL", 0⟩]) rfl,
   (C1_amended 0
      ⟨1, some "sq_1", some "sub_1", some "1", some "basic_plan_id", true, "ACTIVE", some 0⟩
      ⟨true, none, false, true⟩ none "s_new" none).2.2.2.1
      (⟨1, some "sq_1", some "sub_1", some "1", some "basic_plan_id", true, "PAUSED", some 0⟩,
        [⟨1, some "sub_1", "PAUSE", 0⟩]) rfl,
   (C1_amended 0
      ⟨1, some "sq_1", some "sub_1", some "1", some "basic_plan_id", true, "ACTIVE", some 0⟩
      ⟨true, none, false, true⟩ none "s_new" none).2.2.2.2
      (⟨1, some "sq_1", some "sub_1", some "1", some "basic_plan_id", true, "ACTIVE", some 0⟩,
        [⟨1, some "sub_1", "RESUME", 0⟩]) rfl⟩

/-! ## Claim C3 -/

/-- C3 counterexample: a successful change-plan returns the platform
result untouched — no customer field is written and no
`SubscriptionLog` entry is appended, while the claim demands exactly
one log entry with the corresponding action tag.  (A second deviation,
visible in `pause_sub`/`resume_sub`: those endpoints treat only an
`errors` key as failure, so a `success = false` result without one
still mutates locally.) -/
theorem C3_counterexample :
    change_plan 0
        ⟨1, some "sq_1", some "sub_1", some "1", some "basic_plan_id", true, "ACTIVE", some 0⟩
        ⟨true, none, false, true⟩ =
      .ok (⟨1, some "sq_1", some "sub_1", some "1", some "basic_plan_id", true, "ACTIVE", some 0⟩,
        ([] : List SubscriptionLog)) :=
  rfl

/-- C3 amended: activate (whose platform call always succeeds), pause,
resume, cancel and admin cancel append exactly one log entry with the
corresponding tag on success and abort with an HTTP error on the
failure their check detects (an `errors` key for pause/resume,
`success = false` for cancel, a missing `subscription` object for
admin cancel); change-plan aborts on `success = false` but on success
performs no local write and appends no log entry. -/
theorem C3_amended (today : Nat) (user : Customer) (res : SquareResult)
    (customer : Option Customer) (subid : String) (planCost : Option ℚ) (sid : String) :
    (∀ q, activate_sub today subid user planCost = .ok q →
      q.2.1 = [⟨q.1.id, some subid, "ACTIVATE", today⟩]) ∧
    (user.square_subscription_id = some sid → res.errors_present = true →
      pause_sub today user res = .error 400) ∧
    (∀ p, pause_sub today user res = .ok p → ∃ l, p.2 = [l] ∧ l.action = "PAUSE") ∧
    (user.square_subscription_id = some sid → res.errors_present = true →
      resume_sub today user res = .error 400) ∧
    (∀ p, resume_sub today user res = .ok p → ∃ l, p.2 = [l] ∧ l.action = "RESUME") ∧
    (user.square_subscription_id = some sid → res.success = false →
      cancel_sub today user res = .error 400) ∧
    (∀ p, cancel_sub today user res = .ok p → ∃ l, p.2 = [l] ∧ l.action = "CANCEL") ∧
    (∀ c, customer = some c → c.square_subscription_id = some sid →
      res.subscription_present = false →
      cancel_customer_subscription today customer res = .error 400) ∧
    (∀ p, cancel_customer_subscription today customer res = .ok p →
      ∃ l, p.2 = [l] ∧ l.action = "CANCEL") ∧
    (user.square_subscription_id = some sid → res.success = false →
      change_plan today user res = .error 400) ∧
    (∀ p, change_plan today user res = .ok p → p.1 = user ∧ p.2 = []) := by
  refine ⟨?_, ?_, ?_, ?_, ?_, ?_, ?_, ?_, ?_, ?_, ?_⟩
  · intro q h
    unfold activate_sub at h
    split at h
    · cases h
    · simp only [dummy_create_subscription, reduceIte] at h
      cases h
      rfl
  · intro hsub herr
    unfold pause_sub
    rw [hsub, herr]
    rfl
  · intro p h
    unfold pause_sub at h
    split at h
    · cases h
    · split at h
      · cases h
      · cases h
        exact ⟨_, rfl, rfl⟩
  · intro hsub herr
    unfold resume_sub
    rw [hsub, herr]
    rfl
  · intro p h
    unfold resume_sub at h
    split at h
    · cases h
    · split at h
      · cases h
      · cases h
        exact ⟨_, rfl, rfl⟩
  · intro hsub hfail
    unfold cancel_sub
    rw [hsub]
    simp [hfail]
  · intro p h
    unfold cancel_sub at h
    split at h
    · cases h
    · split at h
      · cases h
      · cases h
        exact ⟨_, rfl, rfl⟩
  · intro c hcust hsub hfail
    unfold cancel_customer_subscription
    rw [hcust]
    simp [hsub, hfail]
  · intro p h
    unfold cancel_customer_subscription at h
    split at h
    · cases h
    · split at h
      · cases h
      · split at h
        · cases h
        · cases h
          exact ⟨_, rfl, rfl⟩
  · intro hsub hfail
    unfold change_plan
    rw [hsub]
    simp [hfail]
  · intro p h
    unfold change_plan at h
    split at h
    · cases h
    · split at h
      · cases h
      · cases h
        exact ⟨rfl, rfl⟩

/-- C3 amended witness: concrete applications at a customer with a
subscription, once with a failing platform result (pause aborts with
HTTP 400) and once with a successful one (cancel logs exactly one
`CANCEL` entry, change-plan logs nothing). -/
theorem C3_amended_witness :
    pause_sub 5
        ⟨1, some "sq_1", some "sub_1", some "1", some "basic_plan_id", true, "ACTIVE", some 0⟩
        ⟨false, some "card declined", true, false⟩ = .error 400 ∧
    (∃ l, ((⟨1, some "sq_1", some "sub_1", some "1", some "basic_plan_id", false, "CANCELED", some 0⟩ : Customer),
        [(⟨1, some "sub_1", "CANCEL", 5⟩ : SubscriptionLog)]).2 = [l] ∧ l.action = "CANCEL") ∧
    ((⟨1, some "sq_1", some "sub_1", some "1", some "basic_plan_id", true, "ACTIVE", some 0⟩ : Customer),
        ([] : List SubscriptionLog)).1 =
      ⟨1, some "sq_1", some "sub_1", some "1", some "basic_plan_id", true, "ACTIVE", some 0⟩ :=
  ⟨(C3_amended 5
      ⟨1, some "sq_1", some "sub_1", some "1", some "basic_plan_id", true, "ACTIVE", some 0⟩
      ⟨false, some "card declined", true, false⟩ none "s_new" none "sub_1").2.1 rfl rfl,
   (C3_amended 5
      ⟨1, some "sq_1", some "sub_1", some "1", some "basic_plan_id", true, "ACTIVE", some 0⟩
      ⟨true, none, false, true⟩ none "s_new" none "sub_1").2.2.2.2.2.2.1
      (⟨1, some "sq_1", some "sub_1", some "1", some "basic_plan_id", false, "CANCELED", some 0⟩,
        [⟨1, some "sub_1", "CANCEL", 5⟩]) rfl,
   ((C3_amended 5
      ⟨1, some "sq_1", some "sub_1", some "1", some "basic_plan_id", true, "ACTIVE", some 0⟩
      ⟨true, none, false, true⟩ none "s_new" none "sub_1").2.2.2.2.2.2.2.2.2.2
      (⟨1, some "sq_1", some "sub_1", some "1", some "basic_plan_id", true, "ACTIVE", some 0⟩,
        ([] : List SubscriptionLog)) rfl).1⟩

/-! ## Claim C7 -/

lemma defaultCount_append (k : Nat) (A B : List PaymentMethod) :
    defaultCount k (A ++ B) = defaultCount k A + defaultCount k B := by
  simp [defaultCount, List.filter_append]

lemma defaultCount_cons (k : Nat) (m : PaymentMethod) (t : List PaymentMethod) :
    defaultCount k (m :: t) =
      (if m.customer_id = k ∧ m.is_default = true then 1 else 0) + defaultCount k t := by
  by_cases h : m.customer_id = k ∧ m.is_default = true
  · simp only [defaultCount, List.filter_cons, h, if_pos, decide_eq_true_eq]
    simp [h]
    omega
  · simp only [defaultCount, List.filter_cons, decide_eq_true_eq]
    simp [h]

lemma clearDefaults_cons (cid : Nat) (m : PaymentMethod) (t : List PaymentMethod) :
    clearDefaults cid (m :: t) =
      (if m.customer_id = cid then { m with is_default := false } else m) ::
        clearDefaults cid t := by
  simp [clearDefaults]

lemma defaultCount_clearDefaults_self (cid : Nat) (ms : List PaymentMethod) :
    defaultCount cid (clearDefaults cid ms) = 0 := by
  induction ms with
  | nil => rfl
  | cons m t ih =>
    rw [clearDefaults_cons, defaultCount_cons, ih]
    by_cases h : m.customer_id = cid
    · simp [h]
    · simp [h]

lemma defaultCount_clearDefaults_other (k cid : Nat) (hk : k ≠ cid)
    (ms : List PaymentMethod) :
    defaultCount k (clearDefaults cid ms) = defaultCount k ms := by
  induction ms with
  | nil => rfl
  | cons m t ih =>
    rw [clearDefaults_cons, defaultCount_cons, ih, defaultCount_cons]
    by_cases h : m.customer_id = cid
    · have hmk : ¬ m.customer_id = k := by
        rw [h]
        exact fun hh => hk hh.symm
      simp [h, hmk]
      intro hck
      exact absurd hck.symm hk
    · simp [h]

/-- C7: both card-saving operations first clear `is_default` on all of
the customer's stored methods and then insert the new card as the sole
default: afterwards the acting customer has exactly one default
method, and if every customer had at most one default before, that
still holds for every customer. -/
theorem C7_single_default (cid : Nat) (cardId : String) (last4 brand : Option String)
    (em ey : Option Nat) (ms : List PaymentMethod)
    (hinv : ∀ k, defaultCount k ms ≤ 1) :
    (defaultCount cid (validate_card_methods cid cardId last4 brand em ey ms) = 1 ∧
      ∀ k, defaultCount k (validate_card_methods cid cardId last4 brand em ey ms) ≤ 1) ∧
    (defaultCount cid (save_card_methods cid cardId last4 brand em ey ms) = 1 ∧
      ∀ k, defaultCount k (save_card_methods cid cardId last4 brand em ey ms) ≤ 1) := by
  have hnew_self : defaultCount cid [newCardMethod cid cardId last4 brand em ey] = 1 := by
    simp [defaultCount, newCardMethod]
  have hnew_other : ∀ k, k ≠ cid →
      defaultCount k [newCardMethod cid cardId last4 brand em ey] = 0 := by
    intro k hk
    have hck : ¬ cid = k := fun hh => hk hh.symm
    simp [defaultCount, newCardMethod, hck]
  have hself : defaultCount cid (clearDefaults cid ms ++
      [newCardMethod cid cardId last4 brand em ey]) = 1 := by
    rw [defaultCount_append, defaultCount_clearDefaults_self, hnew_self]
  have hall : ∀ k, defaultCount k (clearDefaults cid ms ++
      [newCardMethod cid cardId last4 brand em ey]) ≤ 1 := by
    intro k
    by_cases hk : k = cid
    · subst hk
      rw [hself]
    · rw [defaultCount_append, defaultCount_clearDefaults_other k cid hk,
        hnew_other k hk]
      simpa using hinv k
  exact ⟨⟨hself, hall⟩, ⟨hself, hall⟩⟩

lemma defaultCount_pair_le_one (m1 m2 : PaymentMethod)
    (hne : m1.customer_id ≠ m2.customer_id) (k : Nat) :
    defaultCount k [m1, m2] ≤ 1 := by
  rw [defaultCount_cons, defaultCount_cons,
    show defaultCount k ([] : List PaymentMethod) = 0 from rfl]
  by_cases h1 : m1.customer_id = k ∧ m1.is_default = true
  · by_cases h2 : m2.customer_id = k ∧ m2.is_default = true
    · exact absurd (h1.1.trans h2.1.symm) hne
    · simp [h1, h2]
  · by_cases h2 : m2.customer_id = k ∧ m2.is_default = true
    · simp [h1, h2]
    · simp [h1, h2]

/-- C7 witness: saving a new card for customer 1 when customers 1 and
2 each already have a default card. -/
theorem C7_single_default_witness :
    defaultCount 1 (validate_card_methods 1 "card_c" (some "4242") (some "VISA")
      (some 12) (some 2030)
      [⟨1, "card_a", some "1111", some "VISA", some 1, some 2027, true⟩,
       ⟨2, "card_b", some "2222", some "MC", some 2, some 2028, true⟩]) = 1 ∧
    defaultCount 2 (validate_card_methods 1 "card_c" (some "4242") (some "VISA")
      (some 12) (some 2030)
      [⟨1, "card_a", some "1111", some "VISA", some 1, some 2027, true⟩,
       ⟨2, "card_b", some "2222", some "MC", some 2, some 2028, true⟩]) ≤ 1 :=
  ⟨(C7_single_default 1 "card_c" (some "4242") (some "VISA") (some 12) (some 2030)
      [⟨1, "card_a", some "1111", some "VISA", some 1, some 2027, true⟩,
       ⟨2, "card_b", some "2222", some "MC", some 2, some 2028, true⟩]
      (defaultCount_pair_le_one _ _ (by decide))).1.1,
   (C7_single_default 1 "card_c" (some "4242") (some "VISA") (some 12) (some 2030)
      [⟨1, "card_a", some "1111", some "VISA", some 1, some 2027, true⟩,
       ⟨2, "card_b", some "2222", some "MC", some 2, some 2028, true⟩]
      (defaultCount_pair_le_one _ _ (by decide))).1.2 2⟩

/-! ## Claim C8 -/

lemma growthGo_length (dn : Nat → Nat) (dr : Nat → ℚ) :
    ∀ (fuel total i : Nat), (growthGo dn dr total i fuel).length = fuel := by
  intro fuel
  induction fuel with
  | zero => intro total i; rfl
  | succ f ih =>
    intro total i
    simp [growthGo, ih]

lemma growthGo_map_customers (dn : Nat → Nat) (dr : Nat → ℚ) :
    ∀ (fuel total i : Nat),
      (growthGo dn dr total i fuel).map GrowthItem.customers =
        cumulativeSeries total ((List.range' i fuel).map dn) := by
  intro fuel
  induction fuel with
  | zero => intro total i; rfl
  | succ f ih =>
    intro total i
    rw [List.range'_succ]
    simp only [growthGo, List.map_cons, cumulativeSeries]
    rw [ih]

lemma cumulativeSeries_head_le (n : Nat) (cs : List Nat) :
    ∀ y ∈ (cumulativeSeries n cs).head?, n ≤ y := by
  cases cs with
  | nil => simp [cumulativeSeries]
  | cons c t => simp [cumulativeSeries]

lemma cumulativeSeries_chain (n : Nat) (cs : List Nat) :
    List.Chain' (· ≤ ·) (cumulativeSeries n cs) := by
  induction cs generalizing n with
  | nil => simp [cumulativeSeries]
  | cons c t ih =>
    rw [cumulativeSeries, List.chain'_cons']
    exact ⟨cumulativeSeries_head_le (n + c) t, ih (n + c)⟩

/-- C8: for every prefix count `N` and every daily new-customer
function, the analytics growth history has exactly 31 entries, its
customer values are the cumulative series
`N + c0, N + c0 + c1, ...`, that series is non-decreasing, and its
first entry equals `N + c0`. -/
theorem C8_growth_history (N : Nat) (dn : Nat → Nat) (dr : Nat → ℚ) :
    (growth_history N dn dr).length = 31 ∧
    (growth_history N dn dr).map GrowthItem.customers =
      cumulativeSeries N ((List.range 31).map dn) ∧
    List.Chain' (· ≤ ·) ((growth_history N dn dr).map GrowthItem.customers) ∧
    ((growth_history N dn dr).map GrowthItem.customers).head? = some (N + dn 0) := by
  have hmap := growthGo_map_customers dn dr 31 N 0
  have hr : List.range 31 = List.range' 0 31 := List.range_eq_range' 31
  refine ⟨growthGo_length dn dr 31 N 0, ?_, ?_, ?_⟩
  · rw [growth_history, hmap, hr]
  · rw [growth_history, hmap]
    exact cumulativeSeries_chain N _
  · rw [growth_history, hmap]
    rw [show List.range' 0 31 = 0 :: List.range' 1 30 from rfl, List.map_cons,
      cumulativeSeries]
    rfl

/-! ## Claims C6 and C10 -/

/-- C6 counterexample: a remote invoice whose first payment request
has `computed_amount_money.amount = 0` and whose
`next_payment_amount_money.amount = 500` is stored with amount 5.00,
while the claim's rule (computed amount preferred whenever the field
is populated) yields 0. -/
theorem C6_counterexample :
    extract_amount ⟨"inv_0", none, some "UNPAID", none, [⟨some ⟨some 0⟩⟩], some ⟨some 500⟩⟩ = 5 ∧
    claimDisplayAmount ⟨"inv_0", none, some "UNPAID", none, [⟨some ⟨some 0⟩⟩], some ⟨some 500⟩⟩ = 0 ∧
    (5 : ℚ) ≠ 0 := by
  refine ⟨?_, ?_, ?_⟩
  · norm_num [extract_amount]
  · norm_num [claimDisplayAmount]
  · norm_num

/-- C6 amended: the stored display amount equals the first payment
request's computed amount divided by 100 whenever that field is
populated with a non-zero value; otherwise (field absent, no payment
request, or a zero amount) it is the next-payment-amount divided
by 100 (0 when that too is absent); in particular a computed amount
of 2999 yields 29.99. -/
theorem C6_amount_conversion_amended :
    (∀ sq, extract_amount sq = amendedDisplayAmount sq) ∧
    extract_amount ⟨"inv_1", none, some "PAID", none, [⟨some ⟨some 2999⟩⟩], none⟩ = 29.99 := by
  refine ⟨?_, by norm_num [extract_amount]⟩
  · intro sq
    cases hpr : sq.payment_requests with
    | nil =>
      cases hnx : sq.next_payment_amount_money with
      | none => simp [extract_amount, amendedDisplayAmount, nextPaymentFallback, hpr, hnx]
      | some m => simp [extract_amount, amendedDisplayAmount, nextPaymentFallback, hpr, hnx]
    | cons pr rest =>
      cases hcm : pr.computed_amount_money with
      | none =>
        cases hnx : sq.next_payment_amount_money with
        | none => simp [extract_amount, amendedDisplayAmount, nextPaymentFallback, hpr, hcm, hnx]
        | some m => simp [extract_amount, amendedDisplayAmount, nextPaymentFallback, hpr, hcm, hnx]
      | some mny =>
        cases ha : mny.amount with
        | none =>
          cases hnx : sq.next_payment_amount_money with
          | none => simp [extract_amount, amendedDisplayAmount, nextPaymentFallback, hpr, hcm, ha, hnx]
          | some m => simp [extract_amount, amendedDisplayAmount, nextPaymentFallback, hpr, hcm, ha, hnx]
        | some a =>
          by_cases h0 : a = 0
          · subst h0
            cases hnx : sq.next_payment_amount_money with
            | none => simp [extract_amount, amendedDisplayAmount, nextPaymentFallback, hpr, hcm, ha, hnx]
            | some m => simp [extract_amount, amendedDisplayAmount, nextPaymentFallback, hpr, hcm, ha, hnx]
          · simp [extract_amount, amendedDisplayAmount, nextPaymentFallback, hpr, hcm, ha, h0]

/-- C10: when the first payment request's computed amount equals 0 and
the next-payment-amount field carries `m`, the stored local amount is
`m / 100`, not 0 — the fallback is taken on a zero amount, not only on
a missing one. -/
theorem C10_zero_computed_amount_falls_back (idv : String)
    (subid stat url : Option String) (prs : List PaymentRequest) (m : Int) :
    extract_amount ⟨idv, subid, stat, url, ⟨some ⟨some 0⟩⟩ :: prs, some ⟨some m⟩⟩ =
      (m : ℚ) / 100 := by
  simp [extract_amount]

/-! ## Claim C5: lemmas about updateFirst and syncGo -/

lemma updInvoice_id (sq : SqInvoice) (r : Invoice) :
    (updInvoice sq r).square_invoice_id = r.square_invoice_id := rfl

lemma updInvoice_idem (sq : SqInvoice) (r : Invoice) :
    updInvoice sq (updInvoice sq r) = updInvoice sq r := rfl

lemma updInvoice_mkInvoice (cid : Nat) (dd : SqInvoice → Nat) (sq : SqInvoice) :
    updInvoice sq (mkInvoice cid dd sq) = mkInvoice cid dd sq := rfl

lemma mkInvoice_id (cid : Nat) (dd : SqInvoice → Nat) (sq : SqInvoice) :
    (mkInvoice cid dd sq).square_invoice_id = sq.id := rfl

lemma hasId_iff (rows : List Invoice) (i : String) :
    hasId rows i = true ↔ i ∈ rows.map Invoice.square_invoice_id := by
  simp only [hasId, List.any_eq_true, decide_eq_true_eq, List.mem_map]

lemma hasId_eq_false_iff (rows : List Invoice) (i : String) :
    hasId rows i = false ↔ ∀ r ∈ rows, r.square_invoice_id ≠ i := by
  simp [hasId, List.any_eq_false]

lemma hasId_append (A B : List Invoice) (i : String) :
    hasId (A ++ B) i = (hasId A i || hasId B i) := by
  simp [hasId, List.any_append]

lemma updateFirst_map_id (i : String) (f : Invoice → Invoice)
    (hf : ∀ r, (f r).square_invoice_id = r.square_invoice_id)
    (rows : List Invoice) :
    (updateFirst i f rows).map Invoice.square_invoice_id =
      rows.map Invoice.square_invoice_id := by
  induction rows with
  | nil => rfl
  | cons r rs ih =>
    by_cases h : r.square_invoice_id = i
    · simp [updateFirst, h, hf]
    · simp [updateFirst, h, ih]

lemma hasId_congr {rows rows' : List Invoice}
    (h : rows.map Invoice.square_invoice_id = rows'.map Invoice.square_invoice_id)
    (i : String) : hasId rows i = hasId rows' i := by
  by_cases hb : i ∈ rows'.map Invoice.square_invoice_id
  · rw [(hasId_iff rows i).mpr (h ▸ hb), (hasId_iff rows' i).mpr hb]
  · have h1 : ¬ hasId rows i = true := fun hh => hb (h ▸ (hasId_iff rows i).mp hh)
    have h2 : ¬ hasId rows' i = true := fun hh => hb ((hasId_iff rows' i).mp hh)
    rw [Bool.not_eq_true] at h1 h2
    rw [h1, h2]

lemma updateFirst_append_left (i : String) (f : Invoice → Invoice)
    (A B : List Invoice) (h : hasId A i = true) :
    updateFirst i f (A ++ B) = updateFirst i f A ++ B := by
  induction A with
  | nil => simp [hasId] at h
  | cons r rs ih =>
    by_cases hr : r.square_invoice_id = i
    · simp [updateFirst, hr]
    · have h' : hasId rs i = true := by simpa [hasId, hr] using h
      simp [updateFirst, hr, ih h']

lemma updateFirst_append_right (i : String) (f : Invoice → Invoice)
    (A B : List Invoice) (h : hasId A i = false) :
    updateFirst i f (A ++ B) = A ++ updateFirst i f B := by
  induction A with
  | nil => rfl
  | cons r rs ih =>
    have h2 : ¬ r.square_invoice_id = i ∧ hasId rs i = false := by
      simpa [hasId] using h
    simp [updateFirst, h2.1, ih h2.2]

lemma updateFirst_stable_of_ne (i j : String) (hij : j ≠ i)
    (f g : Invoice → Invoice)
    (hg : ∀ r, (g r).square_invoice_id = r.square_invoice_id)
    (R : List Invoice) (h : updateFirst i f R = R) :
    updateFirst i f (updateFirst j g R) = updateFirst j g R := by
  have hij' : ¬ i = j := fun hh => hij hh.symm
  induction R with
  | nil => rfl
  | cons r rs ih =>
    by_cases hrj : r.square_invoice_id = j
    · have hri : ¬ r.square_invoice_id = i := by rw [hrj]; exact hij
      have htail : updateFirst i f rs = rs := by
        have hh := h
        simp only [updateFirst, hri, if_false, ite_false, List.cons.injEq] at hh
        exact hh.2
      have hgi : ¬ (g r).square_invoice_id = i := by rw [hg r]; exact hri
      simp [updateFirst, hrj, hgi, htail]
    · by_cases hri : r.square_invoice_id = i
      · have hfr : f r = r := by
          have hh := h
          simp only [updateFirst, hri, if_pos, ite_true, List.cons.injEq] at hh
          exact hh.1
        simp [updateFirst, hrj, hri, hfr, hij']
      · have htail : updateFirst i f rs = rs := by
          have hh := h
          simp only [updateFirst, hri, if_false, ite_false, List.cons.injEq] at hh
          exact hh.2
        simp [updateFirst, hrj, hri, ih htail]

lemma updateFirst_self_stable (i : String) (f : Invoice → Invoice)
    (hfid : ∀ r, (f r).square_invoice_id = r.square_invoice_id)
    (hfidem : ∀ r, f (f r) = f r) (R : List Invoice) :
    updateFirst i f (updateFirst i f R) = updateFirst i f R := by
  induction R with
  | nil => rfl
  | cons r rs ih =>
    by_cases hr : r.square_invoice_id = i
    · have hr' : (f r).square_invoice_id = i := by rw [hfid r]; exact hr
      simp [updateFirst, hr, hr', hfidem r]
    · simp [updateFirst, hr, ih]

lemma syncGo_cons_update (cid : Nat) (dd : SqInvoice → Nat) (sq : SqInvoice)
    (rest : List SqInvoice) (com pend : List Invoice) (n : Nat)
    (h : hasId com sq.id = true) :
    syncGo cid dd (sq :: rest) com pend n =
      syncGo cid dd rest (updateFirst sq.id (updInvoice sq) com) pend n := by
  simp [syncGo, h]

lemma syncGo_cons_insert (cid : Nat) (dd : SqInvoice → Nat) (sq : SqInvoice)
    (rest : List SqInvoice) (com pend : List Invoice) (n : Nat)
    (h : hasId com sq.id = false) :
    syncGo cid dd (sq :: rest) com pend n =
      syncGo cid dd rest com (pend ++ [mkInvoice cid dd sq]) (n + 1) := by
  simp [syncGo, h]

lemma syncGo_com_map (cid : Nat) (dd : SqInvoice → Nat) :
    ∀ (l : List SqInvoice) (com pend : List Invoice) (n : Nat),
      ((syncGo cid dd l com pend n).1).map Invoice.square_invoice_id =
        com.map Invoice.square_invoice_id := by
  intro l
  induction l with
  | nil => intro com pend n; rfl
  | cons sq rest ih =>
    intro com pend n
    by_cases h : hasId com sq.id = true
    · rw [syncGo_cons_update cid dd sq rest com pend n h, ih]
      exact updateFirst_map_id sq.id (updInvoice sq) (fun r => rfl) com
    · rw [syncGo_cons_insert cid dd sq rest com pend n (by simpa using h)]
      exact ih com (pend ++ [mkInvoice cid dd sq]) (n + 1)

lemma syncGo_pend_count (cid : Nat) (dd : SqInvoice → Nat) :
    ∀ (l : List SqInvoice) (com pend : List Invoice) (n : Nat),
      (syncGo cid dd l com pend n).2.1 =
        pend ++ (l.filter (fun sq => ! hasId com sq.id)).map (mkInvoice cid dd) ∧
      (syncGo cid dd l com pend n).2.2 =
        n + (l.filter (fun sq => ! hasId com sq.id)).length := by
  intro l
  induction l with
  | nil => intro com pend n; exact ⟨(List.append_nil pend).symm, rfl⟩
  | cons sq rest ih =>
    intro com pend n
    by_cases h : hasId com sq.id = true
    · rw [syncGo_cons_update cid dd sq rest com pend n h]
      obtain ⟨ih1, ih2⟩ := ih (updateFirst sq.id (updInvoice sq) com) pend n
      have hmap := updateFirst_map_id sq.id (updInvoice sq) (fun r => rfl) com
      have hfc : rest.filter
          (fun sq' => ! hasId (updateFirst sq.id (updInvoice sq) com) sq'.id) =
          rest.filter (fun sq' => ! hasId com sq'.id) := by
        apply List.filter_congr
        intro a _
        rw [hasId_congr hmap a.id]
      rw [ih1, ih2, hfc, List.filter_cons_of_neg]
      · exact ⟨rfl, rfl⟩
      · simp [h]
    · have hf : hasId com sq.id = false := by simpa using h
      rw [syncGo_cons_insert cid dd sq rest com pend n hf]
      obtain ⟨ih1, ih2⟩ := ih com (pend ++ [mkInvoice cid dd sq]) (n + 1)
      rw [ih1, ih2, List.filter_cons_of_pos]
      · constructor
        · rw [List.map_cons, List.append_assoc]
          rfl
        · simp only [List.length_cons]
          omega
      · simp [hf]

lemma syncGo_stable_propagate (cid : Nat) (dd : SqInvoice → Nat) (i : String)
    (f : Invoice → Invoice) :
    ∀ (l : List SqInvoice) (com pend : List Invoice) (n : Nat),
      (∀ sq ∈ l, sq.id ≠ i) →
      updateFirst i f com = com →
      updateFirst i f (syncGo cid dd l com pend n).1 =
        (syncGo cid dd l com pend n).1 := by
  intro l
  induction l with
  | nil => intro com pend n _ hst; exact hst
  | cons sq rest ih =>
    intro com pend n hne hst
    by_cases h : hasId com sq.id = true
    · rw [syncGo_cons_update cid dd sq rest com pend n h]
      exact ih _ pend n (fun s hs => hne s (List.mem_cons_of_mem sq hs))
        (updateFirst_stable_of_ne i sq.id (hne sq (List.mem_cons_self sq rest)) f
          (updInvoice sq) (fun r => rfl) com hst)
    · rw [syncGo_cons_insert cid dd sq rest com pend n (by simpa using h)]
      exact ih com (pend ++ [mkInvoice cid dd sq]) (n + 1)
        (fun s hs => hne s (List.mem_cons_of_mem sq hs)) hst

lemma syncGo_all_stable (cid : Nat) (dd : SqInvoice → Nat) :
    ∀ (l : List SqInvoice) (com pend : List Invoice) (n : Nat),
      (l.map SqInvoice.id).Nodup →
      (∀ r ∈ pend, ∀ sq ∈ l, r.square_invoice_id ≠ sq.id) →
      ∀ sq ∈ l,
        hasId ((syncGo cid dd l com pend n).1 ++ (syncGo cid dd l com pend n).2.1)
          sq.id = true ∧
        updateFirst sq.id (updInvoice sq)
            ((syncGo cid dd l com pend n).1 ++ (syncGo cid dd l com pend n).2.1) =
          (syncGo cid dd l com pend n).1 ++ (syncGo cid dd l com pend n).2.1 := by
  intro l
  induction l with
  | nil =>
    intro com pend n _ _ sq hsq
    cases hsq
  | cons sq0 rest ih =>
    intro com pend n hnd hpend sq hsq
    have hnd' : (rest.map SqInvoice.id).Nodup := by
      rw [List.map_cons, List.nodup_cons] at hnd
      exact hnd.2
    have hno : sq0.id ∉ rest.map SqInvoice.id := by
      rw [List.map_cons, List.nodup_cons] at hnd
      exact hnd.1
    have hner : ∀ s ∈ rest, s.id ≠ sq0.id := by
      intro s hs he
      exact hno (he ▸ List.mem_map_of_mem SqInvoice.id hs)
    by_cases hc : hasId com sq0.id = true
    · rw [syncGo_cons_update cid dd sq0 rest com pend n hc]
      rcases List.mem_cons.mp hsq with heq | hsqr
      · subst heq
        have hcom1 : updateFirst sq.id (updInvoice sq)
            (updateFirst sq.id (updInvoice sq) com) =
            updateFirst sq.id (updInvoice sq) com :=
          updateFirst_self_stable sq.id (updInvoice sq) (fun r => rfl) (fun r => rfl) com
        have hstab := syncGo_stable_propagate cid dd sq.id (updInvoice sq) rest
          (updateFirst sq.id (updInvoice sq) com) pend n hner hcom1
        have hmap1 : ((syncGo cid dd rest (updateFirst sq.id (updInvoice sq) com)
            pend n).1).map Invoice.square_invoice_id =
            com.map Invoice.square_invoice_id := by
          rw [syncGo_com_map]
          exact updateFirst_map_id sq.id (updInvoice sq) (fun r => rfl) com
        have hhas : hasId (syncGo cid dd rest (updateFirst sq.id (updInvoice sq) com)
            pend n).1 sq.id = true := by
          rw [hasId_congr hmap1 sq.id]
          exact hc
        constructor
        · rw [hasId_append, hhas]
          rfl
        · rw [updateFirst_append_left sq.id (updInvoice sq) _ _ hhas, hstab]
      · exact ih (updateFirst sq0.id (updInvoice sq0) com) pend n hnd'
          (fun r hr s hs => hpend r hr s (List.mem_cons_of_mem sq0 hs)) sq hsqr
    · have hcf : hasId com sq0.id = false := by simpa using hc
      rw [syncGo_cons_insert cid dd sq0 rest com pend n hcf]
      rcases List.mem_cons.mp hsq with heq | hsqr
      · subst heq
        have hmapO : ((syncGo cid dd rest com (pend ++ [mkInvoice cid dd sq])
            (n + 1)).1).map Invoice.square_invoice_id =
            com.map Invoice.square_invoice_id :=
          syncGo_com_map cid dd rest com (pend ++ [mkInvoice cid dd sq]) (n + 1)
        have hhasO : hasId (syncGo cid dd rest com (pend ++ [mkInvoice cid dd sq])
            (n + 1)).1 sq.id = false := by
          rw [hasId_congr hmapO sq.id]
          exact hcf
        have hpendO := (syncGo_pend_count cid dd rest com
          (pend ++ [mkInvoice cid dd sq]) (n + 1)).1
        have hpend_false : hasId pend sq.id = false :=
          (hasId_eq_false_iff pend sq.id).mpr
            (fun r hr => hpend r hr sq (List.mem_cons_self sq rest))
        constructor
        · rw [hasId_append, hhasO, hpendO, hasId_append, hasId_append, hpend_false]
          simp [hasId, mkInvoice_id]
        · rw [updateFirst_append_right _ _ _ _ hhasO, hpendO, List.append_assoc,
            updateFirst_append_right _ _ _ _ hpend_false]
          simp [updateFirst, mkInvoice_id, updInvoice_mkInvoice]
      · apply ih com (pend ++ [mkInvoice cid dd sq0]) (n + 1) hnd' ?_ sq hsqr
        intro r hr s hs
        rcases List.mem_append.mp hr with hrp | hrm
        · exact hpend r hrp s (List.mem_cons_of_mem sq0 hs)
        · rw [List.mem_singleton] at hrm
          subst hrm
          rw [mkInvoice_id]
          exact fun he => hner s hs he.symm

lemma syncGo_noop (cid : Nat) (dd : SqInvoice → Nat) :
    ∀ (l : List SqInvoice) (R : List Invoice) (n0 : Nat),
      (∀ sq ∈ l, hasId R sq.id = true ∧
        updateFirst sq.id (updInvoice sq) R = R) →
      syncGo cid dd l R [] n0 = (R, [], n0) := by
  intro l
  induction l with
  | nil => intro R n0 _; rfl
  | cons sq rest ih =>
    intro R n0 h
    obtain ⟨h1, h2⟩ := h sq (List.mem_cons_self sq rest)
    rw [syncGo_cons_update cid dd sq rest R [] n0 h1, h2]
    exact ih R n0 (fun s hs => h s (List.mem_cons_of_mem sq hs))

/-- C5: invoice synchronization is idempotent.  For a remote list with
pairwise-distinct external invoice ids and a local table without
duplicate ids, a second run (even with a different parsed-date
function, covering the today-fallback) returns exactly the rows the
first run produced, reports a synced count of 0, and the resulting
table has no duplicate external invoice id. -/
theorem C5_sync_idempotent (cid : Nat) (dd1 dd2 : SqInvoice → Nat)
    (sqs : List SqInvoice) (rows : List Invoice)
    (hsq : (sqs.map SqInvoice.id).Nodup)
    (hrows : (rows.map Invoice.square_invoice_id).Nodup) :
    sync_customer_invoices cid dd2 sqs (sync_customer_invoices cid dd1 sqs rows).1 =
      ((sync_customer_invoices cid dd1 sqs rows).1, 0) ∧
    ((sync_customer_invoices cid dd1 sqs rows).1.map
      Invoice.square_invoice_id).Nodup := by
  have hstable := syncGo_all_stable cid dd1 sqs rows [] 0 hsq
    (fun r hr => absurd hr (List.not_mem_nil r))
  have hnoop := syncGo_noop cid dd2 sqs
    ((syncGo cid dd1 sqs rows [] 0).1 ++ (syncGo cid dd1 sqs rows [] 0).2.1) 0 hstable
  constructor
  · unfold sync_customer_invoices
    rw [hnoop]
    simp
  · unfold sync_customer_invoices
    rw [List.map_append, syncGo_com_map cid dd1 sqs rows [] 0,
      (syncGo_pend_count cid dd1 sqs rows [] 0).1, List.nil_append, List.map_map]
    have hmm : (Invoice.square_invoice_id ∘ mkInvoice cid dd1) = SqInvoice.id :=
      funext (fun sq => rfl)
    rw [hmm]
    refine List.Nodup.append hrows ?_ ?_
    · exact hsq.sublist (List.Sublist.map SqInvoice.id (List.filter_sublist sqs))
    · intro a ha hb
      rw [List.mem_map] at hb
      obtain ⟨sq, hsqmem, rfl⟩ := hb
      have hff : hasId rows sq.id = false := by
        simpa using List.of_mem_filter hsqmem
      have htt : hasId rows sq.id = true := (hasId_iff rows sq.id).mpr ha
      rw [htt] at hff
      cases hff

/-- C5 witness: syncing a single remote invoice into an empty local
table twice, with different date parses on the two runs. -/
theorem C5_sync_idempotent_witness :
    sync_customer_invoices 1 (fun _ => 1)
        [⟨"inv_1", none, some "PAID", some "url_1", [⟨some ⟨some 2999⟩⟩], none⟩]
        (sync_customer_invoices 1 (fun _ => 0)
          [⟨"inv_1", none, some "PAID", some "url_1", [⟨some ⟨some 2999⟩⟩], none⟩] []).1 =
      ((sync_customer_invoices 1 (fun _ => 0)
          [⟨"inv_1", none, some "PAID", some "url_1", [⟨some ⟨some 2999⟩⟩], none⟩] []).1, 0) ∧
    ((sync_customer_invoices 1 (fun _ => 0)
        [⟨"inv_1", none, some "PAID", some "url_1", [⟨some ⟨some 2999⟩⟩], none⟩] []).1.map
      Invoice.square_invoice_id).Nodup :=
  C5_sync_idempotent 1 (fun _ => 0) (fun _ => 1)
    [⟨"inv_1", none, some "PAID", some "url_1", [⟨some ⟨some 2999⟩⟩], none⟩] []
    (by decide) (by decide)

end Adams
